import Mathlib

/-!
Shallow embedding of the `certreloader` Go package (`reloader.go`).

The package keeps a TLS certificate / private key pair fresh: `New` resolves
both paths to absolute form, performs a mandatory first `reload`, and starts a
ticker-driven background loop; `reload` reads both files, skips work when both
byte contents equal the last accepted ones, otherwise parses the pair and
publishes it through a single atomic pointer store; `Get` atomically loads the
published pointer; `Stop` closes the stop channel (guarded by a
`select`/`default`, so closing twice is a no-op), which makes a helper
goroutine stop the ticker.

Modelling decisions:
* File bytes are `List Nat`.  `ioutil.ReadFile` is a lookup in a filesystem
  snapshot `String → Option Bytes` (`none` = I/O error).  Go's zero-value
  `[]byte` (nil slice) is the empty list, which matches `bytes.Equal`
  treating nil and empty as equal.
* `tls.X509KeyPair` and `filepath.Abs` are external library calls; they are
  passed in as function parameters (`parse`, `abs`).
* The published pointer `cert *tls.Certificate` is `Option (Nat × TLSCertificate)`:
  the `Nat` is the allocation identity of the pointee (Go allocates a fresh
  `cert` local on every successful reload and stores its address), drawn from
  the `nextPtr` allocation counter, so pointer identity is observable.
* `reload` returns the post-call state together with `Option String` (the
  returned error); the Go code assigns `r.certPEM`, `r.keyPEM` and the pointer
  only on the success path, after every error return.
* The ticker, the stopper goroutine and the reload loop are modelled by an
  event semantics on a `Machine`: a `tick` event carries the filesystem
  snapshot at that instant and triggers a reload only while the ticker is
  active; a `stopCall` event is a call to `Stop()`.  `attempts` counts reload
  attempts (instrumentation only; no Go field corresponds to it).  `loop`
  is the control state of the reload goroutine `for { <-ch; reload }`:
  it is always blocked at `<-ch` between attempts and its `for` body has no
  `break`/`return`, so the only constructor ever reached is `waiting`.
-/

/-- Raw file contents, one `Nat` per byte. -/
abbrev Bytes := List Nat

/-- The parsed certificate + private key object produced by
`tls.X509KeyPair`.  Its exact fields do not matter to the reloader; what
matters is that the certificate chain and the private key live in one value,
bound together at construction time. -/
structure TLSCertificate where
  certificate : List Bytes
  privateKey : Bytes
deriving DecidableEq

/-- Result type of `tls.X509KeyPair`, abstracted: the parser either rejects
the PEM contents with an error message or yields a bound pair. -/
abbrev KeyPairParser := Bytes → Bytes → Except String TLSCertificate

/-- Filesystem snapshot: `ioutil.ReadFile` returns the full contents, or
fails (`none`) when the file is missing or unreadable. -/
abbrev FileSystem := String → Option Bytes

/-- The `Reloader` struct of `reloader.go`.  `cert` is the published pointer
(`none` is Go's nil pointer); the `Nat` component is the pointee's allocation
identity.  `nextPtr` is the allocator for those identities.  `chStopClosed`
models whether the `chStop` channel has been closed. -/
structure Reloader where
  certPath : String
  keyPath : String
  certPEM : Bytes
  keyPEM : Bytes
  cert : Option (Nat × TLSCertificate)
  nextPtr : Nat
  chStopClosed : Bool
deriving DecidableEq

/-- `(*Reloader).Get`: the atomic load of the published pointer. -/
def Reloader.Get (r : Reloader) : Option (Nat × TLSCertificate) :=
  r.cert

/-- `(*Reloader).reload`: read both files (each failure returns the wrapped
error), skip as a successful no-op when both contents equal the stored ones,
otherwise parse; on parse failure return the error, on success assign
`certPEM`, `keyPEM` and atomically store a pointer to the freshly allocated
certificate.  Returns the state after the call and the returned error. -/
def Reloader.reload (parse : KeyPairParser) (fs : FileSystem) (r : Reloader) :
    Reloader × Option String :=
  match fs r.certPath with
  | none => (r, some "unable to read certificate")
  | some certPEM =>
    match fs r.keyPath with
    | none => (r, some "unable to read private key")
    | some keyPEM =>
      if certPEM = r.certPEM ∧ keyPEM = r.keyPEM then
        (r, none)
      else
        match parse certPEM keyPEM with
        | Except.error e => (r, some e)
        | Except.ok cert =>
          ({ r with
              certPEM := certPEM
              keyPEM := keyPEM
              cert := some (r.nextPtr, cert)
              nextPtr := r.nextPtr + 1 }, none)

/-- The `Reloader` value built in `New` right before the first reload:
paths stored, every other field at its Go zero value (nil slices, nil
pointer, channel not yet closed). -/
def initialReloader (certPath keyPath : String) : Reloader :=
  { certPath := certPath
    keyPath := keyPath
    certPEM := []
    keyPEM := []
    cert := none
    nextPtr := 0
    chStopClosed := false }

/-- Control state of the background reload goroutine
`for { <-ch; reload }`.  `waiting` is "blocked receiving on the ticker
channel"; `terminated` would be "the goroutine returned", which no statement
of the loop body can cause. -/
inductive LoopState where
  | waiting
  | terminated
deriving DecidableEq

/-- Whole-system state: the `Reloader`, whether the ticker is still active
(`ticker.Stop` not yet executed by the stopper goroutine), the control state
of the reload goroutine, and an instrumentation counter of reload attempts. -/
structure Machine where
  r : Reloader
  tickerActive : Bool
  loop : LoopState
  attempts : Nat
deriving DecidableEq

/-- `New`: resolve both paths with `filepath.Abs`, build the zero-valued
`Reloader`, run the mandatory first reload (failure aborts construction with
that error, before any ticker or goroutine exists), then start the ticker,
the stopper goroutine and the reload loop. -/
def New (parse : KeyPairParser) (fs : FileSystem)
    (abs : String → Except String String)
    (certPath keyPath : String) (interval : Nat) : Except String Machine :=
  match abs certPath with
  | Except.error e => Except.error e
  | Except.ok certPathAbs =>
    match abs keyPath with
    | Except.error e => Except.error e
    | Except.ok keyPathAbs =>
      match (initialReloader certPathAbs keyPathAbs).reload parse fs with
      | (_, some e) => Except.error e
      | (r1, none) =>
        let _ := interval  -- the ticker period; timing is not modelled
        Except.ok { r := r1, tickerActive := true, loop := LoopState.waiting,
                    attempts := 1 }

/-- `(*Reloader).Stop` together with the stopper goroutine it wakes:
the `select` with a `default` branch closes `chStop` only if it is not
already closed (so a second call does nothing), and closing it makes the
stopper goroutine run `ticker.Stop()`. -/
def stopStep (s : Machine) : Machine :=
  if s.r.chStopClosed then s
  else { s with r := { s.r with chStopClosed := true }, tickerActive := false }

/-- External events: a ticker tick (carrying the filesystem contents at that
instant) and a call to `Stop()`. -/
inductive Event where
  | tick (fs : FileSystem)
  | stopCall

/-- One event step.  A tick reaches the reload loop only while the ticker is
active; a stopped ticker sends nothing, so the loop just stays blocked.
Errors from `reload` are logged and otherwise ignored by the loop. -/
def step (parse : KeyPairParser) (s : Machine) : Event → Machine
  | Event.tick fs =>
    if s.tickerActive then
      { s with r := (s.r.reload parse fs).1, attempts := s.attempts + 1 }
    else s
  | Event.stopCall => stopStep s

/-- Run a list of events in order. -/
def run (parse : KeyPairParser) (s : Machine) : List Event → Machine
  | [] => s
  | ev :: evs => run parse (step parse s ev) evs

/-- The three state updates of `reload`'s success path, in program order:
`r.certPEM = certPEM`, `r.keyPEM = keyPEM`, then the single
`atomic.StorePointer` of the fully constructed certificate.  `publishStage n`
is the state visible to a concurrent reader after the first `n` of those
updates (the pointer store also burns the allocation id, as in `reload`). -/
def publishStage (r : Reloader) (certPEM keyPEM : Bytes)
    (cert : TLSCertificate) : Nat → Reloader
  | 0 => r
  | 1 => { r with certPEM := certPEM }
  | 2 => { r with certPEM := certPEM, keyPEM := keyPEM }
  | _ + 3 =>
    { r with
        certPEM := certPEM
        keyPEM := keyPEM
        cert := some (r.nextPtr, cert)
        nextPtr := r.nextPtr + 1 }

/-! ### Concrete fixtures used by witnesses and counterexamples -/

/-- A concrete parser: rejects a pair when either input is empty (as
`tls.X509KeyPair` rejects PEM input with no blocks), otherwise binds the
two inputs into one certificate object. -/
def parseEx : KeyPairParser := fun c k =>
  if c = [] ∨ k = [] then Except.error "tls: failed to find any PEM data"
  else Except.ok ⟨[c], k⟩

/-- A parser that rejects everything. -/
def parseFail : KeyPairParser := fun _ _ => Except.error "bad pair"

/-- A filesystem where both watched files exist and are empty. -/
def fsEmpty : FileSystem := fun p =>
  if p = "c" ∨ p = "k" then some [] else none

/-- A filesystem with one-byte cert and key files. -/
def fsGood : FileSystem := fun p =>
  if p = "c" then some [1] else if p = "k" then some [2] else none

/-- A filesystem where the certificate file changed (relative to `fsGood`). -/
def fsChanged : FileSystem := fun p =>
  if p = "c" then some [9] else if p = "k" then some [2] else none

/-- A filesystem where no file is readable. -/
def fsMissing : FileSystem := fun _ => none

/-- Path resolution that is already absolute (identity). -/
def absId : String → Except String String := fun s => Except.ok s

/-- The certificate object `parseEx` builds from contents `[1]` / `[2]`. -/
def certEx : TLSCertificate := ⟨[[1]], [2]⟩

/-- The machine right after `New parseEx fsGood absId "c" "k" 5` succeeds. -/
def mEx : Machine :=
  { r := { certPath := "c"
           keyPath := "k"
           certPEM := [1]
           keyPEM := [2]
           cert := some (0, certEx)
           nextPtr := 1
           chStopClosed := false }
    tickerActive := true
    loop := LoopState.waiting
    attempts := 1 }

/-! ### Helper lemmas -/

/-- `reload` never touches the two path fields. -/
theorem reload_preserves_paths (parse : KeyPairParser) (fs : FileSystem)
    (r : Reloader) :
    ((r.reload parse fs).1.certPath = r.certPath ∧
     (r.reload parse fs).1.keyPath = r.keyPath) := by
  cases hc : fs r.certPath with
  | none => simp [Reloader.reload, hc]
  | some certPEM =>
    cases hk : fs r.keyPath with
    | none => simp [Reloader.reload, hc, hk]
    | some keyPEM =>
      by_cases hu : certPEM = r.certPEM ∧ keyPEM = r.keyPEM
      · simp [Reloader.reload, hc, hk, hu]
      · cases hp : parse certPEM keyPEM with
        | error e => simp [Reloader.reload, hc, hk, hu, hp]
        | ok cert => simp [Reloader.reload, hc, hk, hu, hp]

/-- A machine whose stop channel is closed and whose ticker is inactive is
left untouched by every event. -/
theorem step_stopped (parse : KeyPairParser) (s : Machine) (ev : Event)
    (h1 : s.r.chStopClosed = true) (h2 : s.tickerActive = false) :
    step parse s ev = s := by
  cases ev with
  | tick fs => simp [step, h2]
  | stopCall => simp [step, stopStep, h1]

/-- A machine whose stop channel is closed and whose ticker is inactive is
left untouched by every event sequence. -/
theorem run_stopped (parse : KeyPairParser) (s : Machine)
    (h1 : s.r.chStopClosed = true) (h2 : s.tickerActive = false) :
    ∀ evs : List Event, run parse s evs = s := by
  intro evs
  induction evs with
  | nil => rfl
  | cons ev evs ih => simp [run, step_stopped parse s ev h1 h2, ih]

/-! ### Claims -/

/-- Claim C1: every reload attempt that returns an error (certificate read
failure, key read failure, or key-pair construction failure) leaves the whole
`Reloader` state — `certPath`, `keyPath`, the stored PEM bytes and the
published certificate pointer — exactly as it was, so the previously
published certificate is still what `Get()` returns. -/
theorem C1_failed_reload_preserves_state (parse : KeyPairParser)
    (fs : FileSystem) (r : Reloader) (e : String)
    (h : (r.reload parse fs).2 = some e) :
    (r.reload parse fs).1 = r ∧ (r.reload parse fs).1.Get = r.Get := by
  cases hc : fs r.certPath with
  | none => simp [Reloader.reload, hc]
  | some certPEM =>
    cases hk : fs r.keyPath with
    | none => simp [Reloader.reload, hc, hk]
    | some keyPEM =>
      by_cases hu : certPEM = r.certPEM ∧ keyPEM = r.keyPEM
      · simp [Reloader.reload, hc, hk, hu] at h
      · cases hp : parse certPEM keyPEM with
        | error e2 => simp [Reloader.reload, hc, hk, hu, hp]
        | ok cert => simp [Reloader.reload, hc, hk, hu, hp] at h

/-- Witness for C1 at a concrete failing reload (unreadable files). -/
theorem C1_failed_reload_preserves_state_witness :
    (mEx.r.reload parseEx fsMissing).1 = mEx.r ∧
    (mEx.r.reload parseEx fsMissing).1.Get = mEx.r.Get :=
  C1_failed_reload_preserves_state parseEx fsMissing mEx.r
    "unable to read certificate" rfl

/-- Claim C5: when both newly read contents equal the last accepted pair, the
attempt is a successful no-op: the result `(r, none)` is the same for every
parser (no parsing happens) and the state — in particular the published
pointer, allocation id included — is untouched, so `Get()` is
reference-identical before and after.  When the contents differ and parsing
succeeds, the attempt publishes (runs all three updates of the success
path). -/
theorem C5_unchanged_is_noop :
    (∀ (parse : KeyPairParser) (fs : FileSystem) (r : Reloader),
        fs r.certPath = some r.certPEM → fs r.keyPath = some r.keyPEM →
        r.reload parse fs = (r, none)) ∧
    (∀ (parse : KeyPairParser) (fs : FileSystem) (r : Reloader)
        (c k : Bytes) (cert : TLSCertificate),
        fs r.certPath = some c → fs r.keyPath = some k →
        ¬(c = r.certPEM ∧ k = r.keyPEM) → parse c k = Except.ok cert →
        r.reload parse fs = (publishStage r c k cert 3, none)) := by
  constructor
  · intro parse fs r hc hk
    simp [Reloader.reload, hc, hk]
  · intro parse fs r c k cert hc hk hu hp
    simp [Reloader.reload, hc, hk, hu, hp, publishStage]

/-- Witness for C5: an unchanged attempt on `mEx.r` is a no-op; a changed
certificate file with a parser that accepts it publishes. -/
theorem C5_unchanged_is_noop_witness :
    mEx.r.reload parseEx fsGood = (mEx.r, none) ∧
    mEx.r.reload parseEx fsChanged =
      (publishStage mEx.r [9] [2] ⟨[[9]], [2]⟩ 3, none) :=
  ⟨C5_unchanged_is_noop.1 parseEx fsGood mEx.r rfl rfl,
   C5_unchanged_is_noop.2 parseEx fsChanged mEx.r [9] [2] ⟨[[9]], [2]⟩
     rfl rfl (by decide) rfl⟩

/-- Claim C9: change detection is exact byte-for-byte comparison, not a hash:
an attempt is skipped as unchanged precisely when both files read back exactly
the stored last-accepted contents (so a false "unchanged" verdict is
impossible), and any difference — even one byte in one file — makes the
attempt hand the full new contents to the parser. -/
theorem C9_exact_change_detection :
    (∀ (parse : KeyPairParser) (fs : FileSystem) (r : Reloader),
        r.reload parse fs = (r, none) ↔
        (fs r.certPath = some r.certPEM ∧ fs r.keyPath = some r.keyPEM)) ∧
    (∀ (parse : KeyPairParser) (fs : FileSystem) (r : Reloader) (c k : Bytes),
        fs r.certPath = some c → fs r.keyPath = some k →
        ¬(c = r.certPEM ∧ k = r.keyPEM) →
        r.reload parse fs =
          (match parse c k with
           | Except.error e => (r, some e)
           | Except.ok cert => (publishStage r c k cert 3, none))) := by
  constructor
  · intro parse fs r
    constructor
    · intro h
      cases hc : fs r.certPath with
      | none => simp [Reloader.reload, hc] at h
      | some certPEM =>
        cases hk : fs r.keyPath with
        | none => simp [Reloader.reload, hc, hk] at h
        | some keyPEM =>
          by_cases hu : certPEM = r.certPEM ∧ keyPEM = r.keyPEM
          · exact ⟨by rw [hu.1], by rw [hu.2]⟩
          · cases hp : parse certPEM keyPEM with
            | error e => simp [Reloader.reload, hc, hk, hu, hp] at h
            | ok cert =>
              simp [Reloader.reload, hc, hk, hu, hp] at h
              have := congrArg Reloader.nextPtr h
              simp at this
    · intro h
      simp [Reloader.reload, h.1, h.2]
  · intro parse fs r c k hc hk hu
    cases hp : parse c k with
    | error e => simp [Reloader.reload, hc, hk, hu, hp]
    | ok cert => simp [Reloader.reload, hc, hk, hu, hp, publishStage]

/-- Witness for C9: the skip-iff-identical equivalence at a concrete
unchanged state, and the reparse equation at a one-byte certificate change. -/
theorem C9_exact_change_detection_witness :
    (mEx.r.reload parseFail fsGood = (mEx.r, none) ↔
      (fsGood mEx.r.certPath = some mEx.r.certPEM ∧
       fsGood mEx.r.keyPath = some mEx.r.keyPEM)) ∧
    mEx.r.reload parseFail fsChanged =
      (match parseFail [9] [2] with
       | Except.error e => (mEx.r, some e)
       | Except.ok cert => (publishStage mEx.r [9] [2] cert 3, none)) :=
  ⟨C9_exact_change_detection.1 parseFail fsGood mEx.r,
   C9_exact_change_detection.2 parseFail fsChanged mEx.r [9] [2]
     rfl rfl (by decide)⟩

/-- Iterated scheduled attempts against a fixed filesystem snapshot:
`attemptIter n` is the reloader state after `n` consecutive reload calls. -/
def attemptIter (parse : KeyPairParser) (fs : FileSystem) (r : Reloader) :
    Nat → Reloader
  | 0 => r
  | n + 1 => ((attemptIter parse fs r n).reload parse fs).1

/-- Claim C10: the stored PEM fields are assigned only after key-pair
construction succeeds, so rejected content is never recorded as
last-accepted: while the files keep the same invalid content, every attempt
leaves the state at `r`, re-reads and re-parses that content, and fails with
the same error again — it is never skipped as unchanged. -/
theorem C10_rejected_content_not_recorded (parse : KeyPairParser)
    (fs : FileSystem) (r : Reloader) (c k : Bytes) (e : String)
    (hc : fs r.certPath = some c) (hk : fs r.keyPath = some k)
    (hu : ¬(c = r.certPEM ∧ k = r.keyPEM)) (hp : parse c k = Except.error e) :
    ∀ n : Nat, attemptIter parse fs r n = r ∧
      (attemptIter parse fs r n).reload parse fs = (r, some e) := by
  have hone : r.reload parse fs = (r, some e) := by
    simp [Reloader.reload, hc, hk, hu, hp]
  intro n
  induction n with
  | zero => exact ⟨rfl, hone⟩
  | succ n ih =>
    have heq : attemptIter parse fs r (n + 1) = r := by
      simp [attemptIter, ih.2]
    exact ⟨heq, by rw [heq]; exact hone⟩

/-- Witness for C10: two consecutive attempts on files whose (changed)
content the parser rejects both re-parse and fail, leaving the state at
`mEx.r`. -/
theorem C10_rejected_content_not_recorded_witness :
    attemptIter parseFail fsChanged mEx.r 2 = mEx.r ∧
    (attemptIter parseFail fsChanged mEx.r 2).reload parseFail fsChanged =
      (mEx.r, some "bad pair") :=
  C10_rejected_content_not_recorded parseFail fsChanged mEx.r [9] [2]
    "bad pair" rfl rfl (by decide) rfl 2

/-- Claim C2: the success path of a reload updates `certPEM`, then `keyPEM`,
then does the single atomic pointer store of the certificate object that was
fully constructed beforehand by the parser.  A concurrent `Get()` observing
the state after any number `i` of those updates sees either the entire
previously published object or the entire new one — never a certificate from
one rotation paired with a key from another, because the only update visible
to `Get()` is the final whole-object pointer store.  The second part ties the
staged updates to `reload` itself: a successful changed reload ends in
exactly the stage-3 state. -/
theorem C2_no_tearing :
    (∀ (r : Reloader) (c k : Bytes) (cert : TLSCertificate) (i : Nat),
        (publishStage r c k cert i).Get = r.Get ∨
        (publishStage r c k cert i).Get = some (r.nextPtr, cert)) ∧
    (∀ (parse : KeyPairParser) (fs : FileSystem) (r : Reloader) (c k : Bytes)
        (cert : TLSCertificate),
        fs r.certPath = some c → fs r.keyPath = some k →
        ¬(c = r.certPEM ∧ k = r.keyPEM) → parse c k = Except.ok cert →
        (r.reload parse fs).1 = publishStage r c k cert 3) := by
  constructor
  · intro r c k cert i
    match i with
    | 0 => exact Or.inl rfl
    | 1 => exact Or.inl rfl
    | 2 => exact Or.inl rfl
    | n + 3 => exact Or.inr rfl
  · intro parse fs r c k cert hc hk hu hp
    simp [Reloader.reload, hc, hk, hu, hp, publishStage]

/-- Witness for C2: the mid-publish observation at stage 1 on a concrete
state, and a concrete successful reload reaching stage 3. -/
theorem C2_no_tearing_witness :
    ((publishStage mEx.r [9] [2] ⟨[[9]], [2]⟩ 1).Get = mEx.r.Get ∨
      (publishStage mEx.r [9] [2] ⟨[[9]], [2]⟩ 1).Get
        = some (mEx.r.nextPtr, ⟨[[9]], [2]⟩)) ∧
    (mEx.r.reload parseEx fsChanged).1 =
      publishStage mEx.r [9] [2] ⟨[[9]], [2]⟩ 3 :=
  ⟨C2_no_tearing.1 mEx.r [9] [2] ⟨[[9]], [2]⟩ 1,
   C2_no_tearing.2 parseEx fsChanged mEx.r [9] [2] ⟨[[9]], [2]⟩
     rfl rfl (by decide) rfl⟩

/-- Claim C3 fails on the code: when both watched files exist but are empty
(0 bytes), the first reload's change check compares the empty reads against
the zero-valued stored PEM fields (Go's `bytes.Equal` treats a nil slice and
an empty read as equal), deems the contents unchanged, and skips parsing —
even though the parser rejects empty PEM input — so `New` succeeds while the
published certificate pointer is still null and `Get()` returns null. -/
theorem C3_new_null_cert_on_empty_files :
    ∃ m : Machine, New parseEx fsEmpty absId "c" "k" 5 = Except.ok m ∧
      m.r.Get = none ∧
      parseEx [] [] = Except.error "tls: failed to find any PEM data" :=
  ⟨_, rfl, rfl, rfl⟩

/-- Claim C4, as stated, fails on the code in one conjunct: the reload-loop
goroutine `for { <-ch; reload() }` has no exit path, so after `Stop()` it
does not terminate — here, after `Stop()` and further events (a file change
and a second stop), the loop control state is still blocked `waiting` on the
ticker channel, not `terminated`. -/
theorem C4_loop_never_terminates :
    (run parseEx (stopStep mEx)
        [Event.tick fsChanged, Event.stopCall]).loop = LoopState.waiting ∧
    LoopState.waiting ≠ LoopState.terminated := by
  exact ⟨rfl, by decide⟩

/-- Claim C4 amended: after `Stop()` on a running machine the ticker is
halted and the machine is untouched by every later event sequence — no
further reload attempts happen even if the watched files change (the attempt
counter is unchanged), and `Get()` keeps returning the last published
certificate indefinitely; the background loop, however, does not terminate:
it stays blocked `waiting` on the ticker channel. -/
theorem C4_stop_halts_reloading (parse : KeyPairParser) (s : Machine)
    (evs : List Event) (hrun : s.r.chStopClosed = false)
    (hloop : s.loop = LoopState.waiting) :
    (stopStep s).tickerActive = false ∧
    run parse (stopStep s) evs = stopStep s ∧
    (run parse (stopStep s) evs).attempts = s.attempts ∧
    (run parse (stopStep s) evs).r.Get = s.r.Get ∧
    (run parse (stopStep s) evs).loop = LoopState.waiting := by
  have hstop : stopStep s =
      { s with
          r := { s.r with chStopClosed := true }
          tickerActive := false } := by
    simp [stopStep, hrun]
  have h1 : (stopStep s).r.chStopClosed = true := by rw [hstop]
  have h2 : (stopStep s).tickerActive = false := by rw [hstop]
  have hr := run_stopped parse (stopStep s) h1 h2 evs
  refine ⟨h2, hr, ?_, ?_, ?_⟩
  · rw [hr, hstop]
  · rw [hr, hstop]; rfl
  · rw [hr, hstop]; exact hloop

/-- Witness for C4 (amended) on a concrete running machine, with a file
change arriving after the stop. -/
theorem C4_stop_halts_reloading_witness :
    (stopStep mEx).tickerActive = false ∧
    run parseEx (stopStep mEx) [Event.tick fsChanged] = stopStep mEx ∧
    (run parseEx (stopStep mEx) [Event.tick fsChanged]).attempts
      = mEx.attempts ∧
    (run parseEx (stopStep mEx) [Event.tick fsChanged]).r.Get = mEx.r.Get ∧
    (run parseEx (stopStep mEx) [Event.tick fsChanged]).loop
      = LoopState.waiting :=
  C4_stop_halts_reloading parseEx mEx [Event.tick fsChanged] rfl rfl

/-- Claim C6: when the mandatory first load fails (unreadable certificate or
key file, or invalid key pair), `New` returns exactly that error and no
machine — hence no ticker and no background goroutines, which in `New` are
created only after the first reload has succeeded. -/
theorem C6_first_load_failure_aborts (parse : KeyPairParser)
    (fs : FileSystem) (abs : String → Except String String)
    (cp kp : String) (iv : Nat) (cpa kpa : String) (e : String)
    (ha : abs cp = Except.ok cpa) (hb : abs kp = Except.ok kpa)
    (hf : ((initialReloader cpa kpa).reload parse fs).2 = some e) :
    New parse fs abs cp kp iv = Except.error e ∧
    ∀ m : Machine, New parse fs abs cp kp iv ≠ Except.ok m := by
  have herr : New parse fs abs cp kp iv = Except.error e := by
    rcases hrel : (initialReloader cpa kpa).reload parse fs with ⟨r1, res⟩
    rw [hrel] at hf
    simp at hf
    subst hf
    simp [New, ha, hb, hrel]
  exact ⟨herr, fun m hm => Except.noConfusion (herr ▸ hm)⟩

/-- Witness for C6: `New` on a filesystem where the certificate file is
missing returns the wrapped read error and no machine. -/
theorem C6_first_load_failure_aborts_witness :
    New parseEx fsMissing absId "c" "k" 5 =
      Except.error "unable to read certificate" ∧
    ∀ m : Machine, New parseEx fsMissing absId "c" "k" 5 ≠ Except.ok m :=
  C6_first_load_failure_aborts parseEx fsMissing absId "c" "k" 5 "c" "k"
    "unable to read certificate" rfl rfl rfl

/-- Claim C7: `Stop` is idempotent — a second stop on an already-stopped
machine is a total no-op (the `select`/`default` sees the closed channel and
does nothing, so there is no double-close panic, and `Stop` returns nothing,
so it cannot fail) — and irreversible: no event (a tick or another stop)
changes a stopped machine at all, so nothing restarts it. -/
theorem C7_stop_idempotent_irreversible :
    (∀ s : Machine, stopStep (stopStep s) = stopStep s) ∧
    (∀ (parse : KeyPairParser) (s : Machine) (ev : Event),
        s.r.chStopClosed = true → s.tickerActive = false →
        step parse s ev = s) := by
  constructor
  · intro s
    by_cases h : s.r.chStopClosed
    · simp [stopStep, h]
    · simp [stopStep, h]
  · intro parse s ev h1 h2
    exact step_stopped parse s ev h1 h2

/-- Witness for C7 at a concrete stopped machine. -/
theorem C7_stop_idempotent_irreversible_witness :
    stopStep (stopStep mEx) = stopStep mEx ∧
    step parseEx (stopStep mEx) Event.stopCall = stopStep mEx :=
  ⟨C7_stop_idempotent_irreversible.1 mEx,
   C7_stop_idempotent_irreversible.2 parseEx (stopStep mEx) Event.stopCall
     rfl rfl⟩

/-- One event step never touches the two path fields. -/
theorem step_preserves_paths (parse : KeyPairParser) (s : Machine)
    (ev : Event) :
    (step parse s ev).r.certPath = s.r.certPath ∧
    (step parse s ev).r.keyPath = s.r.keyPath := by
  cases ev with
  | tick fs =>
    by_cases h : s.tickerActive
    · simpa [step, h] using reload_preserves_paths parse fs s.r
    · simp [step, h]
  | stopCall =>
    by_cases h : s.r.chStopClosed <;> simp [step, stopStep, h]

/-- No event sequence ever touches the two path fields. -/
theorem run_preserves_paths (parse : KeyPairParser) (evs : List Event) :
    ∀ s : Machine, (run parse s evs).r.certPath = s.r.certPath ∧
      (run parse s evs).r.keyPath = s.r.keyPath := by
  induction evs with
  | nil => exact fun s => ⟨rfl, rfl⟩
  | cons ev evs ih =>
    intro s
    have h1 := step_preserves_paths parse s ev
    have h2 := ih (step parse s ev)
    exact ⟨h2.1.trans h1.1, h2.2.trans h1.2⟩

/-- Claim C8: `New` stores the `filepath.Abs`-resolved forms of both paths
(resolution happens before the first load, which already reads through the
resolved paths), and the stored paths are never modified afterwards: no
reload attempt, stop call, or any event sequence changes them. -/
theorem C8_paths_resolved_and_immutable :
    (∀ (parse : KeyPairParser) (fs : FileSystem)
        (abs : String → Except String String) (cp kp : String) (iv : Nat)
        (cpa kpa : String) (m : Machine),
        abs cp = Except.ok cpa → abs kp = Except.ok kpa →
        New parse fs abs cp kp iv = Except.ok m →
        m.r.certPath = cpa ∧ m.r.keyPath = kpa) ∧
    (∀ (parse : KeyPairParser) (s : Machine) (evs : List Event),
        (run parse s evs).r.certPath = s.r.certPath ∧
        (run parse s evs).r.keyPath = s.r.keyPath) := by
  constructor
  · intro parse fs abs cp kp iv cpa kpa m ha hb hm
    rcases hrel : (initialReloader cpa kpa).reload parse fs with ⟨r1, res⟩
    have hp := reload_preserves_paths parse fs (initialReloader cpa kpa)
    rw [hrel] at hp
    simp [initialReloader] at hp
    cases res with
    | some e => simp [New, ha, hb, hrel] at hm
    | none =>
      simp [New, ha, hb, hrel] at hm
      rw [← hm]
      exact hp
  · intro parse s evs
    exact run_preserves_paths parse evs s

/-- Witness for C8: concrete construction stores the resolved paths, and a
concrete event sequence (a tick on changed files, then a stop) leaves them
untouched. -/
theorem C8_paths_resolved_and_immutable_witness :
    (mEx.r.certPath = "c" ∧ mEx.r.keyPath = "k") ∧
    ((run parseEx mEx [Event.tick fsChanged, Event.stopCall]).r.certPath
        = mEx.r.certPath ∧
      (run parseEx mEx [Event.tick fsChanged, Event.stopCall]).r.keyPath
        = mEx.r.keyPath) :=
  ⟨C8_paths_resolved_and_immutable.1 parseEx fsGood absId "c" "k" 5 "c" "k"
      mEx rfl rfl rfl,
   C8_paths_resolved_and_immutable.2 parseEx mEx
      [Event.tick fsChanged, Event.stopCall]⟩
